import Mathlib

/-!
Verification development for the tag-driven chatbot in `oxycsbot.py`.

The Python source consists of a generic `ChatBot` engine (phrase tagger,
state dispatch, `go_to_state`, `finish`) and the `OxyCSBot` subclass that
instantiates it with concrete states, tag tables and handlers.  This file
shallowly embeds that program:

* Python strings become `String`, `message.lower()` becomes `py_lower`
  (Python's `str.lower` restricted to ASCII, which covers every configured
  phrase and every test input used below).
* `re.search(r'\x5cb' + phrase.lower() + r'\x5cb', msg)` is embedded by a
  small interpreter for the fragment of Python regular expressions that can
  arise from interpolating a phrase between two word-boundary assertions:
  literal characters, `.`, and the quantifiers `* + ?` applied to a single
  atom.  Grouping/alternation/class/anchor metacharacters make the
  translation bail out (`compileRegex` returns `none`); no configured
  phrase uses any metacharacter, which is proved below.
* The mutable attributes of the bot object (`state`, `prev_state`,
  `finish_flag`, `greeted_flag`, `try_count`, `professor`) become the
  record `Bot`; every method that mutates `self` returns the new record.
* Exceptions (`assert` failures, `AttributeError` from `getattr` on a
  missing method or attribute) become the `PyError` side of `Except`.
  `self.respond_using` can recurse (via the "confused" handler); the
  recursion is modelled with a fuel parameter, exhaustion standing for
  Python's `RecursionError`.
* The comparisons `state is "confused"`, `manner is "success"`, ... in the
  source compare interned string literals and behave as equality on every
  path the program can take; they are embedded as string equality.
-/

set_option maxRecDepth 16384

namespace Oxy

/-- Python `str.lower` on one character, restricted to ASCII (`A`-`Z`). -/
def pyLowerChar (c : Char) : Char :=
  if 'A' ≤ c ∧ c ≤ 'Z' then Char.ofNat (c.toNat + 32) else c

/-- Python `str.lower`, restricted to ASCII input. -/
def py_lower (s : String) : String :=
  ⟨s.data.map pyLowerChar⟩

/-- Python regex `\w` (ASCII part): letters, digits and underscore. -/
def isWordChar (c : Char) : Bool :=
  c.isAlphanum || c == '_'

def isWordO : Option Char → Bool
  | none => false
  | some c => isWordChar c

/-- A `\b` word-boundary assertion holds between two (optional) characters
iff exactly one side is a word character. -/
def boundaryB (a b : Option Char) : Bool :=
  isWordO a != isWordO b

/-- A single-character regex atom: a literal character or `.`. -/
inductive RBase where
  | rlit (c : Char)
  | rdot
deriving Repr, DecidableEq

/-- A regex atom as produced by compiling a phrase: a base atom, possibly
under one of the quantifiers `?`, `*`, `+`. -/
inductive RAtom where
  | base (b : RBase)
  | opt (b : RBase)
  | star (b : RBase)
  | plus (b : RBase)
deriving Repr, DecidableEq

/-- Whether a base atom matches a character (`.` matches anything except a
newline, as in Python without `DOTALL`). -/
def baseMatch : RBase → Char → Bool
  | .rlit c, x => x == c
  | .rdot, x => x != '\n'

/-- Regex metacharacters whose appearance in a phrase would change the
meaning of the pattern the source builds by string concatenation.
Braces are written with escapes. -/
def isSpecialChar (c : Char) : Bool :=
  c == '.' || c == '*' || c == '+' || c == '?' || c == '(' || c == ')' ||
  c == '[' || c == ']' || c == '\x7b' || c == '\x7d' || c == '|' ||
  c == '^' || c == '$' || c == '\\'

/-- Compile the characters of a phrase into a sequence of regex atoms,
reading `. * + ?` as metacharacters and refusing the grouping/class/anchor
metacharacters (and a quantifier with no quantifiable atom before it). -/
def compileAux : List Char → List RAtom → Option (List RAtom)
  | [], acc => some acc.reverse
  | c :: cs, acc =>
    if c == '.' then compileAux cs (.base .rdot :: acc)
    else if c == '*' then
      match acc with
      | .base b :: acc' => compileAux cs (.star b :: acc')
      | _ => none
    else if c == '+' then
      match acc with
      | .base b :: acc' => compileAux cs (.plus b :: acc')
      | _ => none
    else if c == '?' then
      match acc with
      | .base b :: acc' => compileAux cs (.opt b :: acc')
      | _ => none
    else if isSpecialChar c then none
    else compileAux cs (.base (.rlit c) :: acc)

def compileRegex (p : List Char) : Option (List RAtom) :=
  compileAux p []

/-- Match zero or more repetitions of a base atom at the front of `s`,
trying the continuation `k` after every number of consumed characters.
`prev` is the character immediately before `s` in the subject. -/
def starRun (b : RBase) : Option Char → List Char → (Option Char → List Char → Bool) → Bool
  | prev, [], k => k prev []
  | prev, x :: s', k =>
    k prev (x :: s') || (baseMatch b x && starRun b (some x) s' k)

/-- Backtracking matcher for a sequence of atoms against a suffix `s` of the
subject.  `prev` is the character immediately before `s` in the subject
(`none` at the start of the subject); the continuation `k` receives the
character before the remaining suffix together with that suffix, so that a
trailing word-boundary assertion can be tested. -/
def runAtoms : List RAtom → Option Char → List Char → (Option Char → List Char → Bool) → Bool
  | [], prev, s, k => k prev s
  | .base b :: as, _, s, k =>
    match s with
    | [] => false
    | x :: s' => baseMatch b x && runAtoms as (some x) s' k
  | .opt b :: as, prev, s, k =>
    runAtoms as prev s k ||
      (match s with
       | [] => false
       | x :: s' => baseMatch b x && runAtoms as (some x) s' k)
  | .star b :: as, prev, s, k =>
    starRun b prev s (fun p' s' => runAtoms as p' s' k)
  | .plus b :: as, _, s, k =>
    match s with
    | [] => false
    | x :: s' => baseMatch b x && starRun b (some x) s' (fun p' s' => runAtoms as p' s' k)

/-- One candidate position for `re.search`: the leading word boundary, the
atoms, then the trailing word boundary. -/
def searchHere (atoms : List RAtom) (prev : Option Char) (s : List Char) : Bool :=
  boundaryB prev s.head? &&
    runAtoms atoms prev s (fun p rest => boundaryB p rest.head?)

/-- `re.search` of the pattern `\b` ++ atoms ++ `\b` in a subject: try the
match at every position.  `prev` is the character before the current
position. -/
def searchAux (atoms : List RAtom) : Option Char → List Char → Bool
  | prev, [] => searchHere atoms prev []
  | prev, c :: s' => searchHere atoms prev (c :: s') || searchAux atoms (some c) s'

def regexSearch (atoms : List RAtom) (subject : List Char) : Bool :=
  searchAux atoms none subject

/-- The last character of `prev` followed by `consumed` (the character just
before the rest of the subject after consuming `consumed`). -/
def lastSeen : Option Char → List Char → Option Char
  | prev, [] => prev
  | _, c :: cs => lastSeen (some c) cs

/-- The phrase occurs verbatim at exactly this position, with word
boundaries before its first and after its last character. -/
def litHere (p : List Char) (prev : Option Char) (s : List Char) : Bool :=
  boundaryB prev s.head? && p.isPrefixOf s &&
    boundaryB (lastSeen prev (s.take p.length)) (s.drop p.length).head?

/-- Literal whole-word search: the phrase occurs verbatim at some position
of the subject with word boundaries before its first and after its last
character.  This is the specification-side notion of occurrence. -/
def litSearchAux (p : List Char) : Option Char → List Char → Bool
  | prev, [] => litHere p prev []
  | prev, c :: s' => litHere p prev (c :: s') || litSearchAux p (some c) s'

def occursWholeWord (p subject : List Char) : Bool :=
  litSearchAux p none subject

/-- What the source does for one phrase:
`re.search(r'\x5cb' + phrase.lower() + r'\x5cb', msg)` — the phrase's
characters are interpolated, unescaped, into the pattern.  (`phrase` is
already lowered by the caller.)  A phrase using an unsupported
metacharacter falls outside the modelled regex fragment; no configured
phrase does (proved below). -/
def matchPhrase (phrase : String) (msg : String) : Bool :=
  match compileRegex phrase.data with
  | some atoms => regexSearch atoms msg.data
  | none => false

/-- A value of the `TAGS` class dictionary: a bare tag or a list of tags
(`_check_tags` normalises the former into the latter). -/
inductive TagVal where
  | str (s : String)
  | list (l : List String)
deriving Repr, DecidableEq

/-- The `OxyCSBot.TAGS` class dictionary as Python builds it from the
literal in the source.  A Python dict literal keeps the last value bound to
a duplicated key, so the duplicated keys of the source are present once,
with their final values: `disappointed` maps to `failing academics` (not
`sad`), `life` to `suicidal` (not `anxious`), and `failing` to
`difficult courses` (not `failing academics`).  The table is written in
several chunks appended together only to keep elaboration fast. -/
def rawTAGS1 : List (String × TagVal) := [
  ("help", .str "help"),
  ("hi", .str "hi"),
  ("hello", .str "hi"),
  ("howdy", .str "hi"),
  ("what\x27s up", .str "hi"),
  ("sad", .str "sad"),
  ("hate", .str "sad"),
  ("depressed", .str "sad"),
  ("disappointed", .str "failing academics"),
  ("miss", .str "sad"),
  ("hopeless", .str "sad"),
  ("disinterested", .str "sad"),
  ("empty", .str "sad"),
  ("life is meaningless", .str "sad"),
  ("no point in", .str "sad"),
  ("not good", .str "sad"),
  ("emotional", .str "sad"),
  ("future", .str "anxious"),
  ("career", .str "anxious"),
  ("anxious", .str "anxious"),
  ("worried", .str "anxious"),
  ("nervous", .str "anxious"),
  ("restless", .str "anxious"),
  ("overwhelmed", .str "anxious"),
  ("agitated", .str "anxious"),
  ("life", .str "suicidal"),
  ("uneasy", .str "anxious"),
  ("troubled", .str "anxious"),
  ("test", .str "failing academics"),
  ("midterm", .str "failing academics")]

def rawTAGS2 : List (String × TagVal) := [
  ("exams", .str "failing academics"),
  ("gpa", .str "failing academics"),
  ("classes", .str "failing academics"),
  ("work", .str "failing academics"),
  ("assignment", .str "failing academics"),
  ("grades", .str "failing academics"),
  ("frustrated", .str "failing academics"),
  ("annoyed", .str "failing academics"),
  ("efforts", .str "failing academics"),
  ("failing", .str "difficult courses"),
  ("quit school", .str "failing academics"),
  ("disconnected", .str "social isolation"),
  ("lonely", .str "social isolation"),
  ("no friends", .str "social isolation"),
  ("homesick", .str "social isolation"),
  ("don\x27t have", .str "social isolation"),
  ("alone", .str "social isolation"),
  ("friendless", .str "social isolation"),
  ("abandoned", .str "social isolation"),
  ("care about me", .str "social isolation"),
  ("not cared for", .str "social isolation"),
  ("die", .str "suicidal"),
  ("kill myself", .str "suicidal"),
  ("killed", .str "suicidal"),
  ("death", .str "suicidal"),
  ("end", .str "suicidal"),
  ("commit", .str "suicidal"),
  ("useless", .str "suicidal"),
  ("worthless", .str "suicidal"),
  ("no purpose", .str "suicidal")]

def rawTAGS3 : List (String × TagVal) := [
  ("alive", .str "suicidal"),
  ("sick", .str "health issues"),
  ("don\x27t feel well", .str "health issues"),
  ("dizzy", .str "health issues"),
  ("tired", .str "health issues"),
  ("migraine", .str "health issues"),
  ("nausea", .str "health issues"),
  ("nauseous", .str "health issues"),
  ("aches", .str "health issues"),
  ("stomachache", .str "health issues"),
  ("hard time", .str "difficult courses"),
  ("don\x27t understand", .str "difficult courses"),
  ("material", .str "difficult courses"),
  ("hard", .str "difficult courses"),
  ("difficult", .str "difficult courses"),
  ("I\x27m behind", .str "difficult courses"),
  ("trouble", .str "difficult courses"),
  ("helpless", .str "difficult courses"),
  ("too much", .str "courses overload"),
  ("overwhelming", .str "courses overload"),
  ("overwhelm", .str "courses overload"),
  ("demanding", .str "courses overload"),
  ("so much", .str "courses overload"),
  ("burdened", .str "courses overload"),
  ("exhausted", .str "courses overload"),
  ("exhausting", .str "courses overload"),
  ("excessive", .str "courses overload"),
  ("overloading", .str "courses overload"),
  ("crazy", .str "courses overload"),
  ("intense", .str "courses overload")]

def rawTAGS4 : List (String × TagVal) := [
  ("so done", .str "courses overload"),
  ("happened", .str "specific events"),
  ("fight", .str "specific events"),
  ("fought", .str "specific events"),
  ("told", .str "specific events"),
  ("said", .str "specific events"),
  ("then", .str "specific events"),
  ("today", .str "specific events"),
  ("yesterday", .str "specific events"),
  ("occured", .str "specific events"),
  ("recently", .str "specific events"),
  ("kathryn", .str "kathryn"),
  ("leonard", .str "kathryn"),
  ("justin", .str "justin"),
  ("li", .str "justin"),
  ("jeff", .str "jeff"),
  ("miller", .str "jeff"),
  ("celia", .str "celia"),
  ("hsing-hau", .str "hsing-hau"),
  ("thanks", .str "thanks"),
  ("thank you", .str "thanks"),
  ("ty", .str "thanks"),
  ("ok", .str "success"),
  ("okie", .str "success"),
  ("okay", .str "success"),
  ("sure", .str "success"),
  ("bye", .str "success"),
  ("yes", .str "yes"),
  ("ya", .str "yes"),
  ("yep", .str "yes")]

def rawTAGS5 : List (String × TagVal) := [
  ("yeah", .str "yes"),
  ("little bit", .str "yes"),
  ("a little", .str "yes"),
  ("not", .str "no"),
  ("no", .str "no"),
  ("nope", .str "no"),
  ("not really", .str "no"),
  ("nah", .str "no"),
  ("no thanks", .str "no"),
  ("don\x27t want to", .str "no"),
  ("want to", .str "yes"),
  ("idk", .str "idk"),
  ("not sure", .str "idk"),
  ("don\x27t know", .str "idk"),
  ("good", .str "good"),
  ("great", .str "good"),
  ("well", .str "good"),
  ("happy", .str "good"),
  ("fine", .str "good")]

def rawTAGS : List (String × TagVal) :=
  rawTAGS1 ++ rawTAGS2 ++ rawTAGS3 ++ rawTAGS4 ++ rawTAGS5

/-- `ChatBot._check_tags`: normalise every bare-string value of the shared
class table into a singleton list (run once per `__init__`, mutating the
class-level dictionary in place). -/
def check_tags (t : List (String × TagVal)) : List (String × TagVal) :=
  t.map fun pt =>
    match pt.2 with
    | .str s => (pt.1, .list [s])
    | .list l => (pt.1, .list l)

/-- The tag table as every `respond` call sees it (after `__init__` has
normalised it). -/
def TAGS : List (String × TagVal) := check_tags rawTAGS

/-- The list of tags a table value contributes to `Counter.update`. -/
def tagList : TagVal → List String
  | .str s => [s]
  | .list l => l

/-- `ChatBot._get_tags`: lower the message, and for every configured
phrase whose pattern `\x5cb phrase.lower() \x5cb` is found in it, add
that phrase's tags once.  The resulting `Counter` is embedded as the
multiset (list) of added tags; a tag's count is its `List.count`. -/
def get_tags (message : String) : List String :=
  let msg := py_lower message
  TAGS.foldl
    (fun acc pt => if matchPhrase (py_lower pt.1) msg then acc ++ tagList pt.2 else acc)
    []

/-! ## The bot object and the dialogue engine -/

/-- The mutable per-conversation attributes of the `OxyCSBot` instance.
`professor` starts unassigned (reading it before an assignment raises
`AttributeError` in Python), hence the `Option`. -/
structure Bot where
  state : String
  prev_state : String
  finish_flag : Bool
  greeted_flag : Bool
  try_count : Nat
  professor : Option String
deriving Repr, DecidableEq

/-- The exceptions the engine can raise: a failed `assert`, an
`AttributeError` from `getattr` on a missing method or attribute, and
Python's `RecursionError` (modelled as fuel exhaustion of the
`respond_using` recursion). -/
inductive PyError where
  | assertionError (msg : String)
  | attributeError (attr : String)
  | recursionError
deriving Repr, DecidableEq

/-- `OxyCSBot.STATES`. -/
def STATES : List String := [
  "waiting",
  "specific_faculty",
  "unknown_faculty",
  "unrecognized_faculty",
  "why_sad",
  "talk_to_professors",
  "other_factors",
  "greeting",
  "clubs",
  "suicidal_response_friends",
  "anxious_breathe",
  "figure_out_feelings",
  "specific_event_response",
  "confused",
  "why_not"]

/-- `OxyCSBot.PROFESSORS`. -/
def PROFESSORS : List String := ["celia", "hsing-hau", "jeff", "justin", "kathryn"]

/-- The bot right after `OxyCSBot.__init__` (default state `waiting`). -/
def initialBot : Bot :=
  { state := "waiting", prev_state := "", finish_flag := false,
    greeted_flag := false, try_count := 0, professor := none }

/-- The response produced on entering the `confused` state
(`'\n '.join` of the two literals in `on_enter_confused`). -/
def confusedText : String :=
  "Sorry, I am just a bot. And I\x27m confused about what you just typed.\n Maybe try checking for typos or rephrasing what you were saying?"

/-- The `on_enter_*` methods, dispatched by state name as
`getattr(self, f'on_enter_STATE')()` does; a state without an
`on_enter_*` method raises `AttributeError`.  Besides producing the
text, `on_enter_greeting` sets `greeted_flag` and `on_enter_confused`
increments `try_count`; `on_enter_specific_faculty` reads the
`professor` attribute (unset until a faculty handler assigns it) and then
calls the undefined method `get_office_hours`, so it always raises. -/
def on_enter (s : String) (b : Bot) : Except PyError (String × Bot) :=
  if s = "greeting" then
    .ok ("I am here to help! How are you feeling today?", { b with greeted_flag := true })
  else if s = "anxious_breathe" then
    .ok ("You must be feeling overwhelmed right now.\nLet\x27s pull ourselves into the present.\nPlease close your eyes and take 3 huge breaths.Do you feel better?", b)
  else if s = "suicidal_response_friends" then
    .ok ("I\x27m sorry... you must be going through a lot.It\x27s tough going through them alone.Do you have any friends, family, or anyone you can talk to right now?", b)
  else if s = "why_sad" then
    .ok ("Hmm, I\x27m sorry to hear that.\nWhat is on your mind?", b)
  else if s = "specific_event_response" then
    .ok ("Sounds like a rough experience. Has it effected your school experience?", b)
  else if s = "figure_out_feelings" then
    .ok ("Let\x27s figure this out together.\nDo you feel sad or maybe even overwhelmed?", b)
  else if s = "clubs" then
    .ok ("I\x27m sorry to hear that.\nSchool can be a very daunting experience for many people. You are not alone in this.\nOne of the best and easiest ways to make friends or to feel more connected is to join a club.\nDo you have any interests? Would you be interested in joining a club?", b)
  else if s = "why_not" then
    .ok ("Hmm, I see. Why not, if I might ask?", b)
  else if s = "talk_to_professors" then
    .ok ("Handling school is very tough. I can\x27t imagine what you\x27re going through.\nHave you tried reaching out to any professor or tutoring services available at your school?", b)
  else if s = "other_factors" then
    .ok ("I\x27m so proud of you for reaching out for resources!\nThat\x27s a hard thing to do. I\x27m sorry that it hasn\x27t helped\nMaybe there are other factors that might affecting your academic life.\nCan you think of other reasons why you might be struggling?", b)
  else if s = "confused" then
    .ok (confusedText, { b with try_count := b.try_count + 1 })
  else if s = "specific_faculty" then
    match b.professor with
    | none => .error (.attributeError "professor")
    | some _ => .error (.attributeError "get_office_hours")
  else if s = "unknown_faculty" then
    .ok ("Who\x27s office hours are you looking for?", b)
  else if s = "unrecognized_faculty" then
    .ok ("I\x27m not sure I understand - are you looking for Celia, Hsing-hau, Jeff, Justin, or Kathryn?", b)
  else
    .error (.attributeError ("on_enter_" ++ s))

/-- `ChatBot.go_to_state`: assert the target is a declared, non-default
state, run its `on_enter_*` method, then update `prev_state` (unless both
the current and the target state are `confused`) and `state`.  The
source's `is` comparisons on interned string literals are embedded as
string equality. -/
def go_to_state (b : Bot) (state : String) : Except PyError (String × Bot) :=
  if ¬ STATES.contains state then
    .error (.assertionError ("ERROR: state " ++ state ++ " is not defined"))
  else if state = "waiting" then
    .error (.assertionError "WARNING: do not call go_to_state on the default state; use finish instead")
  else
    match on_enter state b with
    | .error e => .error e
    | .ok (response, b1) =>
      let b2 := if ¬ (state = "confused" ∧ b1.state = "confused")
                then { b1 with prev_state := b1.state } else b1
      .ok (response, { b2 with state := state })

/-- The text returned by `finish_fail`. -/
def failText : String :=
  "I\x27ve tried my best but I still don\x27t understand. Maybe try asking other students?"

/-- The text returned by `finish_good_response` (`'\n '.join` of its three
literals). -/
def goodResponseText : String :=
  "That\x27s great to hear!\n Remember that it is healthy to talk about your emotions, so please let me know if you\x27re feeling any negativity. \n School can be rough to experience."

/-- The `finish_*` methods, dispatched by manner name; `none` stands for
an `AttributeError` from `getattr` on an unregistered manner.  (The
`finish_health_resources` text is a `'\n'.join` over a Python `set`
literal, whose iteration order is hash-dependent; it is modelled in
insertion order.) -/
def finishUtterance (manner : String) : Option String :=
  if manner = "success" then
    some "Alright. Hang in there, let know if you need anything else"
  else if manner = "fail" then
    some failText
  else if manner = "cant_help" then
    some "I know it\x27s hard to take my advice since I\x27m just a bot.\n Please refer to a human counselor for more personal help.\n Everything will be okay!"
  else if manner = "thanks" then
    some "You\x27re welcome!"
  else if manner = "checkpoint" then
    some "CHECKPOINT BABY"
  else if manner = "talk_to_them" then
    some "You\x27d be surprise how helpful it is to go to office hours or to tutoring services!\nYou can also try asking classmates for help too. You might not be the only one struggling\nI hope this was helpful!"
  else if manner = "health_resources" then
    some "That must be really rough to go through right now.\nMaybe you can try going to your school\x27s medical center or center for some help.\nIf this is affecting your school work, maybe you can also talk to your professors directly about this. They might be able to empathize!"
  else if manner = "course_overload_response" then
    some "I reccommend dropping a course, but you can also reach out to your professor to work things out.\nHow does that sound?"
  else if manner = "academic_resources" then
    some "Courses can be very difficult and time consuming. \nSometimes, we need extra help and guidance. And that\x27s okay!\nI suggest using the tutoring services or interacting with your professors more during their office hours."
  else if manner = "join_clubs" then
    some "Cool! Next would be to check out your school\x27s list of clubs and reach out to them about how to join.\nI know that seems like a lot, but I believe in you!"
  else if manner = "should_join_club" then
    some "Check out your school\x27s list of clubs. It wouldn\x27t hurt to see what\x27s out there!"
  else if manner = "hotline_idk" then
    some "That\x27s okay. No matter the case, know that you deserve to live. \nAnd if you feel like causing harm to yourself, please call a friend or the hotline.\nWe can also talk about what you\x27re feeling"
  else if manner = "hotline" then
    some "Please call the suicide hotline."
  else if manner = "talk_to_friends" then
    some "I\x27m sure that they really care about you. Please talk to them about how you are feeling!"
  else if manner = "good_response" then
    some goodResponseText
  else none

/-- The terminal finish manners of `ChatBot.finish`. -/
def terminalManner (manner : String) : Bool :=
  manner == "success" || manner == "fail" || manner == "thanks" || manner == "cant_help"

/-- The end-of-conversation marker appended by a terminal finish:
`'\n'.join([response, " ", "< Conversation has ended >"])`. -/
def endMarker : String := "\n \n< Conversation has ended >"

/-- `ChatBot.finish`: set `finish_flag`, produce the manner's utterance;
a terminal manner returns to the default state with `finish_flag`
cleared and the end marker appended, any other manner returns to the
default state with `finish_flag` still set and the plain utterance. -/
def finish (b : Bot) (manner : String) : Except PyError (String × Bot) :=
  let b1 := { b with finish_flag := true }
  match finishUtterance manner with
  | none => .error (.attributeError ("finish_" ++ manner))
  | some response =>
    if terminalManner manner then
      .ok (response ++ endMarker, { b1 with state := "waiting", finish_flag := false })
    else
      .ok (response, { b1 with state := "waiting" })

/-- `respond_from_*` handlers return the engine's response; the
`respond_from_anxious_breathe` handler can fall through all branches and
return Python's `None`, embedded as `none`. -/
abbrev RespondResult := Except PyError (Option String × Bot)

/-- Lift the result of `go_to_state`/`finish` (always a string response)
into a handler result. -/
def liftR (r : Except PyError (String × Bot)) : RespondResult :=
  r.map fun p => (some p.1, p.2)

/-- `OxyCSBot.respond_from_waiting`. -/
def respond_from_waiting (b : Bot) (tags : List String) : RespondResult :=
  if tags.contains "sad" then liftR (go_to_state b "why_sad")
  else if tags.contains "good" then liftR (finish b "good_response")
  else if tags.contains "social isolation" then liftR (go_to_state b "clubs")
  else if tags.contains "suicidal" then liftR (go_to_state b "suicidal_response_friends")
  else if tags.contains "anxious" then liftR (go_to_state b "anxious_breathe")
  else if tags.contains "thanks" && b.finish_flag then liftR (finish b "thanks")
  else if tags.contains "thanks" && !b.finish_flag then liftR (go_to_state b "confused")
  else if tags.contains "idk" then liftR (go_to_state b "why_sad")
  else if tags.contains "health issues" then liftR (finish b "health_resources")
  else if tags.contains "difficult courses" then liftR (finish b "academic_resources")
  else if tags.contains "courses overload" then liftR (finish b "course_overload_response")
  else if tags.contains "specific events" then liftR (go_to_state b "specific_event_response")
  else if tags.contains "help" || tags.contains "hi" then liftR (go_to_state b "greeting")
  else if tags.contains "success" && b.finish_flag then liftR (finish b "success")
  else if tags.contains "success" && b.greeted_flag then
    liftR (finish { b with greeted_flag := false } "good_response")
  else if tags.contains "no" && b.finish_flag then liftR (finish b "cant_help")
  else liftR (go_to_state b "confused")

/-- `OxyCSBot.respond_from_anxious_breathe` (note: no final `else`, so the
handler can return Python `None`). -/
def respond_from_anxious_breathe (b : Bot) (tags : List String) : RespondResult :=
  if tags.contains "yes" then liftR (finish b "success")
  else if tags.contains "no" || tags.contains "idk" then liftR (go_to_state b "why_not")
  else .ok (none, b)

/-- `OxyCSBot.respond_from_suicidal_response_friends`. -/
def respond_from_suicidal_response_friends (b : Bot) (tags : List String) : RespondResult :=
  if tags.contains "idk" then liftR (finish b "hotline_idk")
  else if tags.contains "no" then liftR (finish b "hotline")
  else if tags.contains "yes" then liftR (finish b "talk_to_friends")
  else liftR (go_to_state b "confused")

/-- `OxyCSBot.respond_from_why_sad`. -/
def respond_from_why_sad (b : Bot) (tags : List String) : RespondResult :=
  if tags.contains "sad" then liftR (go_to_state b "why_sad")
  else if tags.contains "good" then liftR (finish b "good_response")
  else if tags.contains "suicidal" then liftR (go_to_state b "suicidal_response_friends")
  else if tags.contains "anxious" then liftR (go_to_state b "anxious_breathe")
  else if tags.contains "social isolation" then liftR (go_to_state b "clubs")
  else if tags.contains "thanks" && b.finish_flag then liftR (finish b "thanks")
  else if tags.contains "thanks" && !b.finish_flag then liftR (go_to_state b "confused")
  else if tags.contains "idk" then liftR (go_to_state b "figure_out_feelings")
  else if tags.contains "health issues" then liftR (finish b "health_resources")
  else if tags.contains "difficult courses" then liftR (finish b "academic_resources")
  else if tags.contains "courses overload" then liftR (finish b "course_overload_response")
  else if tags.contains "specific events" then liftR (go_to_state b "specific_event_response")
  else if tags.contains "help" || tags.contains "hi" then liftR (go_to_state b "greeting")
  else if tags.contains "no" && b.finish_flag then liftR (finish b "cant_help")
  else liftR (go_to_state b "confused")

/-- `OxyCSBot.respond_from_figure_out_feelings`. -/
def respond_from_figure_out_feelings (b : Bot) (tags : List String) : RespondResult :=
  if tags.contains "sad" || tags.contains "yes" || tags.contains "no" then
    liftR (go_to_state b "why_sad")
  else if tags.contains "suicidal" then liftR (go_to_state b "suicidal_response_friends")
  else if tags.contains "anxious" then liftR (go_to_state b "anxious_breathe")
  else if tags.contains "social isolation" then liftR (go_to_state b "clubs")
  else if tags.contains "idk" then liftR (go_to_state b "why_sad")
  else if tags.contains "health issues" then liftR (finish b "health_resources")
  else if tags.contains "difficult courses" then liftR (finish b "academic_resources")
  else if tags.contains "courses overload" then liftR (finish b "course_overload_response")
  else if tags.contains "help" || tags.contains "hi" then liftR (go_to_state b "greeting")
  else liftR (go_to_state b "confused")

/-- `OxyCSBot.respond_from_clubs`. -/
def respond_from_clubs (b : Bot) (tags : List String) : RespondResult :=
  if tags.contains "no" then liftR (go_to_state b "why_not")
  else if tags.contains "yes" then liftR (finish b "join_clubs")
  else if tags.contains "idk" then liftR (finish b "should_join_club")
  else liftR (go_to_state b "confused")

/-- `OxyCSBot.respond_from_why_not`. -/
def respond_from_why_not (b : Bot) (tags : List String) : RespondResult :=
  if tags.contains "sad" then liftR (go_to_state b "why_sad")
  else if tags.contains "good" then liftR (finish b "good_response")
  else if tags.contains "suicidal" then liftR (go_to_state b "suicidal_response_friends")
  else if tags.contains "anxious" then liftR (go_to_state b "anxious_breathe")
  else if tags.contains "thanks" && b.finish_flag then liftR (finish b "thanks")
  else if tags.contains "thanks" && !b.finish_flag then liftR (go_to_state b "confused")
  else if tags.contains "idk" then liftR (go_to_state b "figure_out_feelings")
  else if tags.contains "health issues" then liftR (finish b "health_resources")
  else if tags.contains "difficult courses" then liftR (finish b "academic_resources")
  else if tags.contains "failing academics" then liftR (go_to_state b "talk_to_professors")
  else if tags.contains "social isolation" then liftR (go_to_state b "clubs")
  else if tags.contains "courses overload" then liftR (finish b "course_overload_response")
  else if tags.contains "specific events" then liftR (go_to_state b "specific_event_response")
  else if tags.contains "help" || tags.contains "hi" then liftR (go_to_state b "greeting")
  else if tags.contains "no" && b.finish_flag then liftR (finish b "cant_help")
  else liftR (go_to_state b "confused")

/-- `OxyCSBot.respond_from_talk_to_professors`. -/
def respond_from_talk_to_professors (b : Bot) (tags : List String) : RespondResult :=
  if tags.contains "no" then liftR (finish b "talk_to_them")
  else if tags.contains "yes" then liftR (go_to_state b "other_factors")
  else liftR (go_to_state b "confused")

/-- `OxyCSBot.respond_from_other_factors`. -/
def respond_from_other_factors (b : Bot) (tags : List String) : RespondResult :=
  if tags.contains "sad" then liftR (go_to_state b "why_sad")
  else if tags.contains "good" then liftR (finish b "good_response")
  else if tags.contains "suicidal" then liftR (go_to_state b "suicidal_response_friends")
  else if tags.contains "anxious" then liftR (go_to_state b "anxious_breathe")
  else if tags.contains "thanks" && b.finish_flag then liftR (finish b "thanks")
  else if tags.contains "thanks" && !b.finish_flag then liftR (go_to_state b "confused")
  else if tags.contains "idk" then liftR (go_to_state b "figure_out_feelings")
  else if tags.contains "social isolation" then liftR (go_to_state b "clubs")
  else if tags.contains "health issues" then liftR (finish b "health_resources")
  else if tags.contains "difficult courses" then liftR (finish b "academic_resources")
  else if tags.contains "courses overload" then liftR (finish b "course_overload_response")
  else if tags.contains "specific events" then liftR (go_to_state b "specific_event_response")
  else if tags.contains "help" || tags.contains "hi" then liftR (go_to_state b "greeting")
  else if tags.contains "no" && b.finish_flag then liftR (finish b "cant_help")
  else liftR (go_to_state b "confused")

/-- `OxyCSBot.respond_from_specific_faculty` (the `else` branch calls
`finish('location')`, and no `finish_location` method exists). -/
def respond_from_specific_faculty (b : Bot) (tags : List String) : RespondResult :=
  if tags.contains "yes" then liftR (finish b "success")
  else liftR (finish b "location")

/-- `OxyCSBot.respond_from_unknown_faculty`: on the first professor tag
found (in `PROFESSORS` order) assign `self.professor` and enter
`specific_faculty`; otherwise enter `unrecognized_faculty`. -/
def respond_from_unknown_faculty (b : Bot) (tags : List String) : RespondResult :=
  match PROFESSORS.find? (fun p => tags.contains p) with
  | some p => liftR (go_to_state { b with professor := some p } "specific_faculty")
  | none => liftR (go_to_state b "unrecognized_faculty")

/-- `OxyCSBot.respond_from_unrecognized_faculty`. -/
def respond_from_unrecognized_faculty (b : Bot) (tags : List String) : RespondResult :=
  match PROFESSORS.find? (fun p => tags.contains p) with
  | some p => liftR (go_to_state { b with professor := some p } "specific_faculty")
  | none => liftR (finish b "fail")

/-- The engine's dispatch on the current state: the body of
`ChatBot.respond` (`getattr(self, f'respond_from_STATE')` followed by the
call with the message's tags), with the three handlers that re-dispatch
(`respond_from_greeting`, `respond_from_specific_event_response`,
`respond_from_confused`) inlined so that the recursion through
`respond_using` is structural in the fuel.  Fuel exhaustion models
Python's `RecursionError`; an unknown state models the `AttributeError`
from `getattr`. -/
def dispatchCore : Nat → String → Bot → String → RespondResult
  | 0, _, _, _ => .error .recursionError
  | fuel + 1, s, b, message =>
    let tags := get_tags message
    if s = "waiting" then respond_from_waiting b tags
    else if s = "specific_faculty" then respond_from_specific_faculty b tags
    else if s = "unknown_faculty" then respond_from_unknown_faculty b tags
    else if s = "unrecognized_faculty" then respond_from_unrecognized_faculty b tags
    else if s = "why_sad" then respond_from_why_sad b tags
    else if s = "talk_to_professors" then respond_from_talk_to_professors b tags
    else if s = "other_factors" then respond_from_other_factors b tags
    else if s = "greeting" then
      -- respond_from_greeting: set greeted_flag, then respond as "waiting"
      dispatchCore fuel "waiting" { b with greeted_flag := true } message
    else if s = "clubs" then respond_from_clubs b tags
    else if s = "suicidal_response_friends" then respond_from_suicidal_response_friends b tags
    else if s = "anxious_breathe" then respond_from_anxious_breathe b tags
    else if s = "figure_out_feelings" then respond_from_figure_out_feelings b tags
    else if s = "specific_event_response" then
      -- respond_from_specific_event_response: respond as "why_sad"
      dispatchCore fuel "why_sad" b message
    else if s = "confused" then
      -- respond_from_confused: two strikes fail, otherwise backtrack
      if b.try_count == 2 then liftR (finish { b with try_count := 0 } "fail")
      else dispatchCore fuel b.prev_state b message
    else if s = "why_not" then respond_from_why_not b tags
    else .error (.attributeError ("respond_from_" ++ s))

/-- `OxyCSBot.respond_using`: dispatch a message under another state's
response handler (re-tagging the message). -/
def respond_using (fuel : Nat) (state : String) (b : Bot) (message : String) : RespondResult :=
  dispatchCore fuel state b message

/-- The fuel used at top level; any reachable dispatch chain has depth at
most 3 (`confused` → `greeting`/`specific_event_response` → plain). -/
def FUEL : Nat := 100

/-- `ChatBot.respond`: look up the handler for the current state and run
it on the message and its tags. -/
def respond (b : Bot) (message : String) : RespondResult :=
  dispatchCore FUEL b.state b message

/-- Contexts reachable from a fresh bot by any sequence of messages. -/
inductive Reachable : Bot → Prop where
  | init : Reachable initialBot
  | step : ∀ {b : Bot} {msg : String} {r : Option String} {b' : Bot},
      Reachable b → respond b msg = .ok (r, b') → Reachable b'

/-- The atom sequence that matches a phrase literally, character by
character. -/
def litAtoms (p : List Char) : List RAtom :=
  p.map fun c => .base (.rlit c)

/-- `prev_state` is never itself the state `confused` while the state is
`confused`: the invariant each engine operation preserves. -/
def PrevInv (b : Bot) : Prop := b.state = "confused" → b.prev_state ≠ "confused"

/-- The conclusion shared by every handler that cannot clear
`greeted_flag`. -/
def NCConc (b b' : Bot) : Prop :=
  (PrevInv b → PrevInv b') ∧ (b'.greeted_flag = false → b.greeted_flag = false)

/-- The description of the single branch of `respond_from_waiting` that
clears `greeted_flag`: the message carries a `success` tag while
`greeted_flag` is set and no finish is pending, and the engine finishes
with the (non-terminal) `good_response` manner. -/
def ClearDesc (b : Bot) (msg : String) (r : Option String) (b' : Bot) : Prop :=
  (get_tags msg).contains "success" = true ∧ b.greeted_flag = true ∧
    b.finish_flag = false ∧ r = some goodResponseText ∧
    b' = { b with greeted_flag := false, finish_flag := true, state := "waiting" }

/-- The conclusion of the master dispatch lemma. -/
def FullConc (b : Bot) (msg : String) (r : Option String) (b' : Bot) : Prop :=
  (PrevInv b → PrevInv b') ∧
    (b'.greeted_flag = false → b.greeted_flag = false ∨ ClearDesc b msg r b')

/-! ## Serving sessions: the two-run experiment

In the source, every attribute `respond` mutates lives on the bot
instance; the only class-level (shared) mutable data is the `TAGS`
dictionary, which `__init__` normalises in place via `_check_tags`.
Serving one conversation is folding `respond` over its messages; serving
two interleaved conversations is the same fold over a pair of bots, each
message dispatched to its own bot.  (A `respond` that raises leaves the
session's bot as it was; the session's output records the exception.) -/

def serveSession : Bot → List String → List (Except PyError (Option String)) × Bot
  | b, [] => ([], b)
  | b, m :: ms =>
    match respond b m with
    | .ok (r, b1) =>
      let p := serveSession b1 ms
      (.ok r :: p.1, p.2)
    | .error e =>
      let p := serveSession b ms
      (.error e :: p.1, p.2)

def serveTwo :
    Bot × Bot → List (Bool × String) →
      List (Bool × Except PyError (Option String)) × (Bot × Bot)
  | bs, [] => ([], bs)
  | (ba, bb), (w, m) :: rest =>
    if w then
      match respond ba m with
      | .ok (r, ba1) =>
        let p := serveTwo (ba1, bb) rest
        ((true, .ok r) :: p.1, p.2)
      | .error e =>
        let p := serveTwo (ba, bb) rest
        ((true, .error e) :: p.1, p.2)
    else
      match respond bb m with
      | .ok (r, bb1) =>
        let p := serveTwo (ba, bb1) rest
        ((false, .ok r) :: p.1, p.2)
      | .error e =>
        let p := serveTwo (ba, bb) rest
        ((false, .error e) :: p.1, p.2)

/-- The messages of one session inside an interleaved input. -/
def sessionInputs (who : Bool) (input : List (Bool × String)) : List String :=
  input.filterMap fun x => if x.1 = who then some x.2 else none

/-- The outputs of one session inside an interleaved transcript. -/
def sessionOutputs (who : Bool)
    (out : List (Bool × Except PyError (Option String))) :
    List (Except PyError (Option String)) :=
  out.filterMap fun x => if x.1 = who then some x.2 else none

/-! ## The compiled pattern of a metacharacter-free phrase is its literal
atom sequence, and searching it is literal whole-word search -/

theorem compileAux_lits (p : List Char) :
    (∀ c ∈ p, isSpecialChar c = false) →
    ∀ acc, compileAux p acc = some (acc.reverse ++ litAtoms p) := by
  induction p with
  | nil => intro _ acc; simp [compileAux, litAtoms]
  | cons c cs ih =>
    intro h acc
    have hc : isSpecialChar c = false := h c (by simp)
    have hcs : ∀ x ∈ cs, isSpecialChar x = false := fun x hx => h x (by simp [hx])
    have hdot : (c == '.') = false := by
      simp only [isSpecialChar, Bool.or_eq_false_iff] at hc; exact hc.1.1.1.1.1.1.1.1.1.1.1.1.1
    have hstar : (c == '*') = false := by
      simp only [isSpecialChar, Bool.or_eq_false_iff] at hc; exact hc.1.1.1.1.1.1.1.1.1.1.1.1.2
    have hplus : (c == '+') = false := by
      simp only [isSpecialChar, Bool.or_eq_false_iff] at hc; exact hc.1.1.1.1.1.1.1.1.1.1.1.2
    have hq : (c == '?') = false := by
      simp only [isSpecialChar, Bool.or_eq_false_iff] at hc; exact hc.1.1.1.1.1.1.1.1.1.1.2
    simp only [compileAux, hdot, hstar, hplus, hq, hc, Bool.false_eq_true, if_false,
      ih hcs, litAtoms, List.map_cons, List.reverse_cons, List.append_assoc,
      List.cons_append, List.nil_append]

theorem compileRegex_lits (p : List Char) (h : ∀ c ∈ p, isSpecialChar c = false) :
    compileRegex p = some (litAtoms p) := by
  simpa using compileAux_lits p h []

theorem runAtoms_lits (p : List Char) :
    ∀ (prev : Option Char) (s : List Char) (k : Option Char → List Char → Bool),
      runAtoms (litAtoms p) prev s k =
        (p.isPrefixOf s && k (lastSeen prev (s.take p.length)) (s.drop p.length)) := by
  induction p with
  | nil => intro prev s k; simp [litAtoms, runAtoms, List.isPrefixOf, lastSeen]
  | cons c p' ih =>
    intro prev s k
    cases s with
    | nil => simp [litAtoms, runAtoms, List.isPrefixOf]
    | cons x s' =>
      have hstep : litAtoms (c :: p') = .base (.rlit c) :: litAtoms p' := rfl
      rw [hstep]
      by_cases hxc : x = c
      · subst hxc
        simp [runAtoms, baseMatch, List.isPrefixOf, ih, lastSeen, Bool.and_assoc]
      · have h1 : (x == c) = false := by simp [hxc]
        have h2 : (c == x) = false := by simp [Ne.symm hxc]
        simp [runAtoms, baseMatch, List.isPrefixOf, h1, h2]

theorem searchAux_lits (p : List Char) :
    ∀ (s : List Char) (prev : Option Char),
      searchAux (litAtoms p) prev s = litSearchAux p prev s := by
  intro s
  induction s with
  | nil =>
    intro prev
    simp [searchAux, litSearchAux, searchHere, litHere, runAtoms_lits, Bool.and_assoc]
  | cons c s' ih =>
    intro prev
    simp [searchAux, litSearchAux, searchHere, litHere, runAtoms_lits, ih, Bool.and_assoc]

/-- For a phrase free of regex metacharacters, the `re.search` the source
performs is exactly literal whole-word occurrence. -/
theorem matchPhrase_eq_occurs (p : String)
    (h : p.data.all (fun c => !isSpecialChar c) = true) (m : String) :
    matchPhrase p m = occursWholeWord p.data m.data := by
  have h' : ∀ c ∈ p.data, isSpecialChar c = false := by
    intro c hc
    have := List.all_eq_true.mp h c hc
    simpa using this
  simp [matchPhrase, compileRegex_lits p.data h', regexSearch, occursWholeWord,
    searchAux_lits]

/-! ## Counting lemmas for the `Counter` built by `_get_tags` -/

theorem count_of_nodup (l : List String) (t : String) (h : l.Nodup) :
    l.count t = if l.contains t then 1 else 0 := by
  by_cases hm : t ∈ l
  · rw [if_pos (by simpa using hm), List.count_eq_one_of_mem h hm]
  · rw [if_neg (by simpa using hm), List.count_eq_zero_of_not_mem hm]

theorem foldl_count (P : (String × TagVal) → Bool) (t : String) :
    ∀ l : List (String × TagVal), (∀ pt ∈ l, (tagList pt.2).Nodup) →
      ∀ acc : List String,
        (l.foldl (fun a pt => if P pt then a ++ tagList pt.2 else a) acc).count t =
          acc.count t +
            (l.filter fun pt => P pt && (tagList pt.2).contains t).length := by
  intro l
  induction l with
  | nil => intro _ acc; simp
  | cons pt l ih =>
    intro h acc
    have hnd : (tagList pt.2).Nodup := h pt (by simp)
    have hl : ∀ q ∈ l, (tagList q.2).Nodup := fun q hq => h q (by simp [hq])
    cases hp : P pt with
    | false => simp [hp, ih hl]
    | true =>
      simp only [List.foldl_cons, List.filter_cons, hp, Bool.true_and, if_true]
      rw [ih hl (acc ++ tagList pt.2), List.count_append, count_of_nodup _ _ hnd]
      cases hc : (tagList pt.2).contains t
      · simp [hc]
      · simp [hc]
        omega

/-- If no phrase matches, the fold leaves the accumulator unchanged. -/
theorem foldl_nomatch (P : (String × TagVal) → Bool) :
    ∀ l : List (String × TagVal), (∀ pt ∈ l, P pt = false) →
      ∀ acc : List String,
        l.foldl (fun a pt => if P pt then a ++ tagList pt.2 else a) acc = acc := by
  intro l
  induction l with
  | nil => intro _ acc; simp
  | cons pt l ih =>
    intro h acc
    have hp : P pt = false := h pt (by simp)
    have hl : ∀ q ∈ l, P q = false := fun q hq => h q (by simp [hq])
    simp [hp, ih hl]

/-! ## Facts about the concrete tag table -/

/-- No configured phrase contains a regex metacharacter (even after
lowering, which the source applies before interpolation). -/
theorem TAGS_nospecial :
    (TAGS.all fun pt => (py_lower pt.1).data.all fun c => !isSpecialChar c) = true := by
  decide

/-- Every value of the normalised table is a duplicate-free tag list (they
are all singletons). -/
theorem TAGS_nodup_vals : ∀ pt ∈ TAGS, (tagList pt.2).Nodup := by decide

/-- For every configured phrase, the search the source performs is literal
whole-word occurrence. -/
theorem TAGS_match_eq (pt : String × TagVal) (hpt : pt ∈ TAGS) (m : String) :
    matchPhrase (py_lower pt.1) m = occursWholeWord (py_lower pt.1).data m.data :=
  matchPhrase_eq_occurs _ (List.all_eq_true.mp TAGS_nospecial pt hpt) m

/-! ## Claim C6 -/

/-- C6: for every utterance, `tag(utterance)` maps each tag `t` to exactly
the number of configured phrases associated with `t` that occur in the
lower-cased utterance with the phrase's first and last characters on word
boundaries; each present phrase contributes one increment per associated
tag regardless of how many times it recurs (occurrence is boolean), an
utterance in which no configured phrase occurs yields the empty count (in
particular the empty utterance), matching is case-insensitive, and a
phrase occurring only inside a longer word does not match. -/
theorem c6_tagger_reference :
    (∀ msg t : String,
        (get_tags msg).count t =
          (TAGS.filter fun pt =>
            occursWholeWord (py_lower pt.1).data (py_lower msg).data &&
              (tagList pt.2).contains t).length) ∧
    (∀ msg : String,
        (∀ pt ∈ TAGS,
            occursWholeWord (py_lower pt.1).data (py_lower msg).data = false) →
        get_tags msg = []) ∧
    get_tags "" = [] ∧
    get_tags "SAD" = get_tags "sad" ∧
    occursWholeWord "sad".data "asadb".data = false := by
  refine ⟨?_, ?_, by decide, by decide, by decide⟩
  · intro msg t
    simp only [get_tags]
    rw [foldl_count (fun pt => matchPhrase (py_lower pt.1) (py_lower msg)) t TAGS
      TAGS_nodup_vals []]
    simp only [List.count_nil, Nat.zero_add]
    congr 1
    exact List.filter_congr fun pt hpt => by rw [TAGS_match_eq pt hpt]
  · intro msg h
    simp only [get_tags]
    exact foldl_nomatch _ TAGS
      (fun pt hpt => (TAGS_match_eq pt hpt (py_lower msg)).trans (h pt hpt)) []

/-- Witness for C6: on a concrete utterance containing no configured
phrase, the tagger returns the empty count. -/
theorem c6_tagger_reference_witness : get_tags "zzz" = [] :=
  c6_tagger_reference.2.1 "zzz" (by decide)

/-! ## Claim C7 -/

/-- C7: every configured phrase is free of characters that are special in
the matching syntax, and consequently `tag()` treats every configured
phrase as literal text: the search the source performs with the phrase
interpolated unescaped into the pattern coincides, on every utterance,
with literal whole-word occurrence of the phrase, each character matching
only itself. -/
theorem c7_literal_phrases :
    (∀ pt ∈ TAGS, ((py_lower pt.1).data.all fun c => !isSpecialChar c) = true) ∧
    (∀ pt ∈ TAGS, ∀ m : String,
        matchPhrase (py_lower pt.1) m = occursWholeWord (py_lower pt.1).data m.data) :=
  ⟨fun pt hpt => List.all_eq_true.mp TAGS_nospecial pt hpt,
   fun pt hpt m => TAGS_match_eq pt hpt m⟩

/-- Witness for C7 at the configured phrase `sad` and a concrete
utterance. -/
theorem c7_literal_phrases_witness :
    matchPhrase (py_lower "sad") "category SAD" =
      occursWholeWord (py_lower "sad").data "category SAD".data :=
  c7_literal_phrases.2 ("sad", .list ["sad"]) (by decide) "category SAD"

/-! ## Helper lemmas about the engine's primitive operations -/

theorem liftR_ok {e : Except PyError (String × Bot)} {r : Option String} {b' : Bot}
    (h : liftR e = .ok (r, b')) : ∃ t, e = .ok (t, b') ∧ r = some t := by
  cases e with
  | error e => simp [liftR, Except.map] at h
  | ok p =>
    obtain ⟨t, bb⟩ := p
    simp only [liftR, Except.map, Except.ok.injEq, Prod.mk.injEq] at h
    exact ⟨t, by rw [h.2], h.1.symm⟩

/-- The `on_enter_*` methods touch neither `state` nor `prev_state` nor
`finish_flag`, and never clear `greeted_flag`. -/
theorem on_enter_frame {s : String} {b : Bot} {t : String} {b1 : Bot}
    (h : on_enter s b = .ok (t, b1)) :
    b1.state = b.state ∧ b1.prev_state = b.prev_state ∧
      b1.finish_flag = b.finish_flag ∧
      (b1.greeted_flag = false → b.greeted_flag = false) := by
  unfold on_enter at h
  by_cases h0 : s = "greeting"
  · rw [if_pos h0] at h
    simp only [Except.ok.injEq, Prod.mk.injEq] at h
    obtain ⟨-, h2⟩ := h
    subst h2
    simp
  rw [if_neg h0] at h
  by_cases h1 : s = "anxious_breathe"
  · rw [if_pos h1] at h
    simp only [Except.ok.injEq, Prod.mk.injEq] at h
    obtain ⟨-, h2⟩ := h
    subst h2
    simp
  rw [if_neg h1] at h
  by_cases h2 : s = "suicidal_response_friends"
  · rw [if_pos h2] at h
    simp only [Except.ok.injEq, Prod.mk.injEq] at h
    obtain ⟨-, h2⟩ := h
    subst h2
    simp
  rw [if_neg h2] at h
  by_cases h3 : s = "why_sad"
  · rw [if_pos h3] at h
    simp only [Except.ok.injEq, Prod.mk.injEq] at h
    obtain ⟨-, h2⟩ := h
    subst h2
    simp
  rw [if_neg h3] at h
  by_cases h4 : s = "specific_event_response"
  · rw [if_pos h4] at h
    simp only [Except.ok.injEq, Prod.mk.injEq] at h
    obtain ⟨-, h2⟩ := h
    subst h2
    simp
  rw [if_neg h4] at h
  by_cases h5 : s = "figure_out_feelings"
  · rw [if_pos h5] at h
    simp only [Except.ok.injEq, Prod.mk.injEq] at h
    obtain ⟨-, h2⟩ := h
    subst h2
    simp
  rw [if_neg h5] at h
  by_cases h6 : s = "clubs"
  · rw [if_pos h6] at h
    simp only [Except.ok.injEq, Prod.mk.injEq] at h
    obtain ⟨-, h2⟩ := h
    subst h2
    simp
  rw [if_neg h6] at h
  by_cases h7 : s = "why_not"
  · rw [if_pos h7] at h
    simp only [Except.ok.injEq, Prod.mk.injEq] at h
    obtain ⟨-, h2⟩ := h
    subst h2
    simp
  rw [if_neg h7] at h
  by_cases h8 : s = "talk_to_professors"
  · rw [if_pos h8] at h
    simp only [Except.ok.injEq, Prod.mk.injEq] at h
    obtain ⟨-, h2⟩ := h
    subst h2
    simp
  rw [if_neg h8] at h
  by_cases h9 : s = "other_factors"
  · rw [if_pos h9] at h
    simp only [Except.ok.injEq, Prod.mk.injEq] at h
    obtain ⟨-, h2⟩ := h
    subst h2
    simp
  rw [if_neg h9] at h
  by_cases h10 : s = "confused"
  · rw [if_pos h10] at h
    simp only [Except.ok.injEq, Prod.mk.injEq] at h
    obtain ⟨-, h2⟩ := h
    subst h2
    simp
  rw [if_neg h10] at h
  by_cases h11 : s = "specific_faculty"
  · rw [if_pos h11] at h
    cases hp : b.professor <;> rw [hp] at h <;> exact absurd h (by simp)
  rw [if_neg h11] at h
  by_cases h12 : s = "unknown_faculty"
  · rw [if_pos h12] at h
    simp only [Except.ok.injEq, Prod.mk.injEq] at h
    obtain ⟨-, h2⟩ := h
    subst h2
    simp
  rw [if_neg h12] at h
  by_cases h13 : s = "unrecognized_faculty"
  · rw [if_pos h13] at h
    simp only [Except.ok.injEq, Prod.mk.injEq] at h
    obtain ⟨-, h2⟩ := h
    subst h2
    simp
  rw [if_neg h13] at h
  exact absurd h (by simp)

/-- A successful `go_to_state` preserves `PrevInv`, never clears
`greeted_flag`, and lands in the requested state. -/
theorem gts_pres {b : Bot} {s : String} {t : String} {b' : Bot}
    (h : go_to_state b s = .ok (t, b')) :
    (PrevInv b → PrevInv b') ∧
      (b'.greeted_flag = false → b.greeted_flag = false) ∧ b'.state = s := by
  unfold go_to_state at h
  split at h
  · exact absurd h (by simp)
  split at h
  · exact absurd h (by simp)
  cases he : on_enter s b with
  | error e => rw [he] at h; exact absurd h (by simp)
  | ok p =>
    obtain ⟨u, b1⟩ := p
    rw [he] at h
    obtain ⟨hf1, hf2, _, hf4⟩ := on_enter_frame he
    simp only [Except.ok.injEq, Prod.mk.injEq] at h
    obtain ⟨-, hb'⟩ := h
    subst hb'
    refine ⟨?_, ?_, ?_⟩
    · intro hP hc
      split
      next hcond =>
        -- prev_state was overwritten with the old state
        simp only [not_and] at hcond
        show b1.state ≠ "confused"
        intro hbc
        exact hcond (by simpa using hc) hbc
      next hcond =>
        -- both states confused: prev_state kept; use the invariant
        simp only [not_and, not_forall, not_not] at hcond
        rw [hf2]
        exact hP (by rw [← hf1]; exact hcond.2)
    · split <;> simpa using hf4
    · split <;> rfl

/-- A successful `finish` lands in the default state and does not touch
`greeted_flag`, `prev_state`, `try_count` or `professor`. -/
theorem finish_ok {c : Bot} {m : String} {t : String} {b' : Bot}
    (h : finish c m = .ok (t, b')) :
    b'.state = "waiting" ∧ b'.greeted_flag = c.greeted_flag ∧
      b'.prev_state = c.prev_state ∧ b'.try_count = c.try_count ∧
      b'.professor = c.professor := by
  unfold finish at h
  cases hu : finishUtterance m with
  | none => rw [hu] at h; exact absurd h (by simp)
  | some u =>
    rw [hu] at h
    dsimp only at h
    by_cases ht : terminalManner m = true
    · rw [if_pos ht] at h
      simp only [Except.ok.injEq, Prod.mk.injEq] at h
      obtain ⟨-, hb'⟩ := h
      subst hb'
      simp
    · rw [if_neg ht] at h
      simp only [Except.ok.injEq, Prod.mk.injEq] at h
      obtain ⟨-, hb'⟩ := h
      subst hb'
      simp

/-! ## The dispatch invariants: `PrevInv` preservation and the unique
branch that clears `greeted_flag` -/

theorem full_of_nc {b b' : Bot} {msg : String} {r : Option String}
    (H : NCConc b b') : FullConc b msg r b' :=
  ⟨H.1, fun hg => .inl (H.2 hg)⟩

theorem nc_of_gts {b : Bot} {s : String} {r : Option String} {b' : Bot}
    (h : liftR (go_to_state b s) = .ok (r, b')) : NCConc b b' := by
  obtain ⟨t, hg, -⟩ := liftR_ok h
  have H := gts_pres hg
  exact ⟨H.1, H.2.1⟩

theorem nc_of_finish {b c : Bot} {m : String} {r : Option String} {b' : Bot}
    (h : liftR (finish c m) = .ok (r, b')) (hgr : c.greeted_flag = b.greeted_flag) :
    NCConc b b' := by
  obtain ⟨t, hf, -⟩ := liftR_ok h
  have H := finish_ok hf
  refine ⟨fun _ hc => ?_, fun hg => ?_⟩
  · rw [H.1] at hc; exact absurd hc (by decide)
  · rw [H.2.1, hgr] at hg; exact hg

theorem nc_of_id {b : Bot} {r : Option String} {b' : Bot}
    (h : (Except.ok (none, b) : RespondResult) = .ok (r, b')) : NCConc b b' := by
  simp only [Except.ok.injEq, Prod.mk.injEq] at h
  obtain ⟨-, hb⟩ := h
  subst hb
  exact ⟨fun hP => hP, fun hg => hg⟩

/-- Case analysis on one `if` of a handler, keeping the guard. -/
theorem ite_ok_elim {c : Prop} [Decidable c] {x y : RespondResult}
    {r : Option String} {b' : Bot} {P : Prop}
    (h : (if c then x else y) = .ok (r, b'))
    (hx : c → x = .ok (r, b') → P) (hy : ¬ c → y = .ok (r, b') → P) : P := by
  by_cases hc : c
  · exact hx hc (by rwa [if_pos hc] at h)
  · exact hy hc (by rwa [if_neg hc] at h)

/-- Entering `specific_faculty` always raises (`professor` unset, or the
undefined `get_office_hours`). -/
theorem gts_specific_faculty_no {c : Bot} {r : Option String} {b' : Bot}
    (h : liftR (go_to_state c "specific_faculty") = .ok (r, b')) : False := by
  cases hp : c.professor <;>
    simp [go_to_state, on_enter, hp, liftR, Except.map, STATES] at h

theorem respond_from_waiting_clear {b : Bot} {msg : String} {r : Option String} {b' : Bot}
    (hns : ¬ (((get_tags msg).contains "success" && b.finish_flag) = true))
    (hsg : ((get_tags msg).contains "success" && b.greeted_flag) = true)
    (h : liftR (finish { b with greeted_flag := false } "good_response") = .ok (r, b')) :
    FullConc b msg r b' := by
  have hfe : finish { b with greeted_flag := false } "good_response" =
      .ok (goodResponseText,
        { b with greeted_flag := false, finish_flag := true, state := "waiting" }) := rfl
  rw [hfe] at h
  simp only [liftR, Except.map, Except.ok.injEq, Prod.mk.injEq] at h
  obtain ⟨hr, hb'⟩ := h
  rw [Bool.and_eq_true] at hsg
  obtain ⟨hs, hg⟩ := hsg
  refine ⟨fun _ hc => ?_, fun _ => .inr ⟨hs, hg, ?_, hr.symm, hb'.symm⟩⟩
  · rw [← hb'] at hc
    exact absurd hc (by simp)
  · cases hff : b.finish_flag
    · rfl
    · exact absurd (by rw [hs, hff]; rfl) hns

theorem respond_from_waiting_full {b : Bot} {msg : String} {r : Option String} {b' : Bot}
    (h : respond_from_waiting b (get_tags msg) = .ok (r, b')) : FullConc b msg r b' := by
  unfold respond_from_waiting at h
  exact ite_ok_elim h (fun _ h => full_of_nc (nc_of_gts h)) (fun _ h =>
    ite_ok_elim h (fun _ h => full_of_nc (nc_of_finish h rfl)) (fun _ h =>
    ite_ok_elim h (fun _ h => full_of_nc (nc_of_gts h)) (fun _ h =>
    ite_ok_elim h (fun _ h => full_of_nc (nc_of_gts h)) (fun _ h =>
    ite_ok_elim h (fun _ h => full_of_nc (nc_of_gts h)) (fun _ h =>
    ite_ok_elim h (fun _ h => full_of_nc (nc_of_finish h rfl)) (fun _ h =>
    ite_ok_elim h (fun _ h => full_of_nc (nc_of_gts h)) (fun _ h =>
    ite_ok_elim h (fun _ h => full_of_nc (nc_of_gts h)) (fun _ h =>
    ite_ok_elim h (fun _ h => full_of_nc (nc_of_finish h rfl)) (fun _ h =>
    ite_ok_elim h (fun _ h => full_of_nc (nc_of_finish h rfl)) (fun _ h =>
    ite_ok_elim h (fun _ h => full_of_nc (nc_of_finish h rfl)) (fun _ h =>
    ite_ok_elim h (fun _ h => full_of_nc (nc_of_gts h)) (fun _ h =>
    ite_ok_elim h (fun _ h => full_of_nc (nc_of_gts h)) (fun _ h =>
    ite_ok_elim h (fun _ h => full_of_nc (nc_of_finish h rfl)) (fun hns h =>
    ite_ok_elim h (fun hsg h => respond_from_waiting_clear hns hsg h) (fun _ h =>
    ite_ok_elim h (fun _ h => full_of_nc (nc_of_finish h rfl)) (fun _ h =>
    full_of_nc (nc_of_gts h)))))))))))))))))

theorem respond_from_why_sad_nc {b : Bot} {tags : List String} {r : Option String} {b' : Bot}
    (h : respond_from_why_sad b tags = .ok (r, b')) : NCConc b b' := by
  unfold respond_from_why_sad at h
  exact ite_ok_elim h (fun _ h => nc_of_gts h) (fun _ h =>
    ite_ok_elim h (fun _ h => nc_of_finish h rfl) (fun _ h =>
    ite_ok_elim h (fun _ h => nc_of_gts h) (fun _ h =>
    ite_ok_elim h (fun _ h => nc_of_gts h) (fun _ h =>
    ite_ok_elim h (fun _ h => nc_of_gts h) (fun _ h =>
    ite_ok_elim h (fun _ h => nc_of_finish h rfl) (fun _ h =>
    ite_ok_elim h (fun _ h => nc_of_gts h) (fun _ h =>
    ite_ok_elim h (fun _ h => nc_of_gts h) (fun _ h =>
    ite_ok_elim h (fun _ h => nc_of_finish h rfl) (fun _ h =>
    ite_ok_elim h (fun _ h => nc_of_finish h rfl) (fun _ h =>
    ite_ok_elim h (fun _ h => nc_of_finish h rfl) (fun _ h =>
    ite_ok_elim h (fun _ h => nc_of_gts h) (fun _ h =>
    ite_ok_elim h (fun _ h => nc_of_gts h) (fun _ h =>
    ite_ok_elim h (fun _ h => nc_of_finish h rfl) (fun _ h =>
    nc_of_gts h))))))))))))))

theorem respond_from_anxious_breathe_nc {b : Bot} {tags : List String}
    {r : Option String} {b' : Bot}
    (h : respond_from_anxious_breathe b tags = .ok (r, b')) : NCConc b b' := by
  unfold respond_from_anxious_breathe at h
  exact ite_ok_elim h (fun _ h => nc_of_finish h rfl) (fun _ h =>
    ite_ok_elim h (fun _ h => nc_of_gts h) (fun _ h =>
    nc_of_id h))

theorem respond_from_suicidal_response_friends_nc {b : Bot} {tags : List String}
    {r : Option String} {b' : Bot}
    (h : respond_from_suicidal_response_friends b tags = .ok (r, b')) : NCConc b b' := by
  unfold respond_from_suicidal_response_friends at h
  exact ite_ok_elim h (fun _ h => nc_of_finish h rfl) (fun _ h =>
    ite_ok_elim h (fun _ h => nc_of_finish h rfl) (fun _ h =>
    ite_ok_elim h (fun _ h => nc_of_finish h rfl) (fun _ h =>
    nc_of_gts h)))

theorem respond_from_figure_out_feelings_nc {b : Bot} {tags : List String}
    {r : Option String} {b' : Bot}
    (h : respond_from_figure_out_feelings b tags = .ok (r, b')) : NCConc b b' := by
  unfold respond_from_figure_out_feelings at h
  exact ite_ok_elim h (fun _ h => nc_of_gts h) (fun _ h =>
    ite_ok_elim h (fun _ h => nc_of_gts h) (fun _ h =>
    ite_ok_elim h (fun _ h => nc_of_gts h) (fun _ h =>
    ite_ok_elim h (fun _ h => nc_of_gts h) (fun _ h =>
    ite_ok_elim h (fun _ h => nc_of_gts h) (fun _ h =>
    ite_ok_elim h (fun _ h => nc_of_finish h rfl) (fun _ h =>
    ite_ok_elim h (fun _ h => nc_of_finish h rfl) (fun _ h =>
    ite_ok_elim h (fun _ h => nc_of_finish h rfl) (fun _ h =>
    ite_ok_elim h (fun _ h => nc_of_gts h) (fun _ h =>
    nc_of_gts h)))))))))

theorem respond_from_clubs_nc {b : Bot} {tags : List String}
    {r : Option String} {b' : Bot}
    (h : respond_from_clubs b tags = .ok (r, b')) : NCConc b b' := by
  unfold respond_from_clubs at h
  exact ite_ok_elim h (fun _ h => nc_of_gts h) (fun _ h =>
    ite_ok_elim h (fun _ h => nc_of_finish h rfl) (fun _ h =>
    ite_ok_elim h (fun _ h => nc_of_finish h rfl) (fun _ h =>
    nc_of_gts h)))

theorem respond_from_why_not_nc {b : Bot} {tags : List String}
    {r : Option String} {b' : Bot}
    (h : respond_from_why_not b tags = .ok (r, b')) : NCConc b b' := by
  unfold respond_from_why_not at h
  exact ite_ok_elim h (fun _ h => nc_of_gts h) (fun _ h =>
    ite_ok_elim h (fun _ h => nc_of_finish h rfl) (fun _ h =>
    ite_ok_elim h (fun _ h => nc_of_gts h) (fun _ h =>
    ite_ok_elim h (fun _ h => nc_of_gts h) (fun _ h =>
    ite_ok_elim h (fun _ h => nc_of_finish h rfl) (fun _ h =>
    ite_ok_elim h (fun _ h => nc_of_gts h) (fun _ h =>
    ite_ok_elim h (fun _ h => nc_of_gts h) (fun _ h =>
    ite_ok_elim h (fun _ h => nc_of_finish h rfl) (fun _ h =>
    ite_ok_elim h (fun _ h => nc_of_finish h rfl) (fun _ h =>
    ite_ok_elim h (fun _ h => nc_of_gts h) (fun _ h =>
    ite_ok_elim h (fun _ h => nc_of_gts h) (fun _ h =>
    ite_ok_elim h (fun _ h => nc_of_finish h rfl) (fun _ h =>
    ite_ok_elim h (fun _ h => nc_of_gts h) (fun _ h =>
    ite_ok_elim h (fun _ h => nc_of_gts h) (fun _ h =>
    ite_ok_elim h (fun _ h => nc_of_finish h rfl) (fun _ h =>
    nc_of_gts h)))))))))))))))

theorem respond_from_talk_to_professors_nc {b : Bot} {tags : List String}
    {r : Option String} {b' : Bot}
    (h : respond_from_talk_to_professors b tags = .ok (r, b')) : NCConc b b' := by
  unfold respond_from_talk_to_professors at h
  exact ite_ok_elim h (fun _ h => nc_of_finish h rfl) (fun _ h =>
    ite_ok_elim h (fun _ h => nc_of_gts h) (fun _ h =>
    nc_of_gts h))

theorem respond_from_other_factors_nc {b : Bot} {tags : List String}
    {r : Option String} {b' : Bot}
    (h : respond_from_other_factors b tags = .ok (r, b')) : NCConc b b' := by
  unfold respond_from_other_factors at h
  exact ite_ok_elim h (fun _ h => nc_of_gts h) (fun _ h =>
    ite_ok_elim h (fun _ h => nc_of_finish h rfl) (fun _ h =>
    ite_ok_elim h (fun _ h => nc_of_gts h) (fun _ h =>
    ite_ok_elim h (fun _ h => nc_of_gts h) (fun _ h =>
    ite_ok_elim h (fun _ h => nc_of_finish h rfl) (fun _ h =>
    ite_ok_elim h (fun _ h => nc_of_gts h) (fun _ h =>
    ite_ok_elim h (fun _ h => nc_of_gts h) (fun _ h =>
    ite_ok_elim h (fun _ h => nc_of_gts h) (fun _ h =>
    ite_ok_elim h (fun _ h => nc_of_finish h rfl) (fun _ h =>
    ite_ok_elim h (fun _ h => nc_of_finish h rfl) (fun _ h =>
    ite_ok_elim h (fun _ h => nc_of_finish h rfl) (fun _ h =>
    ite_ok_elim h (fun _ h => nc_of_gts h) (fun _ h =>
    ite_ok_elim h (fun _ h => nc_of_gts h) (fun _ h =>
    ite_ok_elim h (fun _ h => nc_of_finish h rfl) (fun _ h =>
    nc_of_gts h))))))))))))))

theorem respond_from_specific_faculty_nc {b : Bot} {tags : List String}
    {r : Option String} {b' : Bot}
    (h : respond_from_specific_faculty b tags = .ok (r, b')) : NCConc b b' := by
  unfold respond_from_specific_faculty at h
  exact ite_ok_elim h (fun _ h => nc_of_finish h rfl) (fun _ h =>
    nc_of_finish h rfl)

theorem respond_from_unknown_faculty_nc {b : Bot} {tags : List String}
    {r : Option String} {b' : Bot}
    (h : respond_from_unknown_faculty b tags = .ok (r, b')) : NCConc b b' := by
  unfold respond_from_unknown_faculty at h
  cases hf : PROFESSORS.find? (fun p => tags.contains p) <;> rw [hf] at h
  · exact nc_of_gts h
  · exact absurd h (fun hh => gts_specific_faculty_no hh)

theorem respond_from_unrecognized_faculty_nc {b : Bot} {tags : List String}
    {r : Option String} {b' : Bot}
    (h : respond_from_unrecognized_faculty b tags = .ok (r, b')) : NCConc b b' := by
  unfold respond_from_unrecognized_faculty at h
  cases hf : PROFESSORS.find? (fun p => tags.contains p) <;> rw [hf] at h
  · exact nc_of_finish h rfl
  · exact absurd h (fun hh => gts_specific_faculty_no hh)

/-- Transport the master conclusion through the `greeted_flag := true`
mutation performed by `respond_from_greeting` before it re-dispatches. -/
theorem full_transport {b : Bot} {msg : String} {r : Option String} {b' : Bot}
    (H : FullConc { b with greeted_flag := true } msg r b') : FullConc b msg r b' := by
  obtain ⟨H1, H2⟩ := H
  refine ⟨fun hP hc => H1 (fun hx => hP hx) hc, fun hgf => ?_⟩
  rcases H2 hgf with h1 | h2
  · simp at h1
  · cases hb : b.greeted_flag
    · exact .inl rfl
    · obtain ⟨c1, c2, c3, c4, c5⟩ := h2
      exact .inr ⟨c1, hb, c3, c4, c5⟩

/-- The master dispatch lemma: a successful `respond` dispatch preserves
the `prev_state` invariant, and the only way it can turn `greeted_flag`
from set to cleared is the `success`-while-greeted branch of the waiting
handler, which finishes with `good_response`. -/
theorem dispatch_master :
    ∀ (fuel : Nat) (s : String) (b : Bot) (msg : String) (r : Option String) (b' : Bot),
      dispatchCore fuel s b msg = .ok (r, b') → FullConc b msg r b' := by
  intro fuel
  induction fuel with
  | zero => intro s b msg r b' h; exact absurd h (by simp [dispatchCore])
  | succ n ih =>
    intro s b msg r b' h
    rw [dispatchCore] at h
    try dsimp only at h
    by_cases hs0 : s = "waiting"
    · rw [if_pos hs0] at h; exact respond_from_waiting_full h
    rw [if_neg hs0] at h
    by_cases hs1 : s = "specific_faculty"
    · rw [if_pos hs1] at h; exact full_of_nc (respond_from_specific_faculty_nc h)
    rw [if_neg hs1] at h
    by_cases hs2 : s = "unknown_faculty"
    · rw [if_pos hs2] at h; exact full_of_nc (respond_from_unknown_faculty_nc h)
    rw [if_neg hs2] at h
    by_cases hs3 : s = "unrecognized_faculty"
    · rw [if_pos hs3] at h; exact full_of_nc (respond_from_unrecognized_faculty_nc h)
    rw [if_neg hs3] at h
    by_cases hs4 : s = "why_sad"
    · rw [if_pos hs4] at h; exact full_of_nc (respond_from_why_sad_nc h)
    rw [if_neg hs4] at h
    by_cases hs5 : s = "talk_to_professors"
    · rw [if_pos hs5] at h; exact full_of_nc (respond_from_talk_to_professors_nc h)
    rw [if_neg hs5] at h
    by_cases hs6 : s = "other_factors"
    · rw [if_pos hs6] at h; exact full_of_nc (respond_from_other_factors_nc h)
    rw [if_neg hs6] at h
    by_cases hs7 : s = "greeting"
    · rw [if_pos hs7] at h; exact full_transport (ih _ _ _ _ _ h)
    rw [if_neg hs7] at h
    by_cases hs8 : s = "clubs"
    · rw [if_pos hs8] at h; exact full_of_nc (respond_from_clubs_nc h)
    rw [if_neg hs8] at h
    by_cases hs9 : s = "suicidal_response_friends"
    · rw [if_pos hs9] at h; exact full_of_nc (respond_from_suicidal_response_friends_nc h)
    rw [if_neg hs9] at h
    by_cases hs10 : s = "anxious_breathe"
    · rw [if_pos hs10] at h; exact full_of_nc (respond_from_anxious_breathe_nc h)
    rw [if_neg hs10] at h
    by_cases hs11 : s = "figure_out_feelings"
    · rw [if_pos hs11] at h; exact full_of_nc (respond_from_figure_out_feelings_nc h)
    rw [if_neg hs11] at h
    by_cases hs12 : s = "specific_event_response"
    · rw [if_pos hs12] at h; exact ih _ _ _ _ _ h
    rw [if_neg hs12] at h
    by_cases hs13 : s = "confused"
    · rw [if_pos hs13] at h
      by_cases htc : (b.try_count == 2) = true
      · rw [if_pos htc] at h; exact full_of_nc (nc_of_finish h rfl)
      · rw [if_neg htc] at h; exact ih _ _ _ _ _ h
    rw [if_neg hs13] at h
    by_cases hs14 : s = "why_not"
    · rw [if_pos hs14] at h; exact full_of_nc (respond_from_why_not_nc h)
    rw [if_neg hs14] at h
    exact absurd h (by simp)

theorem sessionInputs_cons (who w : Bool) (m : String) (rest : List (Bool × String)) :
    sessionInputs who ((w, m) :: rest) =
      if w == who then m :: sessionInputs who rest else sessionInputs who rest := by
  by_cases hww : w = who <;> simp [sessionInputs, List.filterMap_cons, hww]

theorem sessionOutputs_cons (who w : Bool) (o : Except PyError (Option String))
    (out : List (Bool × Except PyError (Option String))) :
    sessionOutputs who ((w, o) :: out) =
      if w == who then o :: sessionOutputs who out else sessionOutputs who out := by
  by_cases hww : w = who <;> simp [sessionOutputs, List.filterMap_cons, hww]

/-- Serving two interleaved conversations is observationally identical to
serving each alone: each session's outputs and final context depend only
on its own messages. -/
theorem serveTwo_indep :
    ∀ (input : List (Bool × String)) (ba bb : Bot),
      sessionOutputs true (serveTwo (ba, bb) input).1 =
          (serveSession ba (sessionInputs true input)).1 ∧
        (serveTwo (ba, bb) input).2.1 = (serveSession ba (sessionInputs true input)).2 ∧
        sessionOutputs false (serveTwo (ba, bb) input).1 =
          (serveSession bb (sessionInputs false input)).1 ∧
        (serveTwo (ba, bb) input).2.2 = (serveSession bb (sessionInputs false input)).2 := by
  intro input
  induction input with
  | nil =>
    intro ba bb
    simp [serveTwo, serveSession, sessionInputs, sessionOutputs]
  | cons x rest ih =>
    intro ba bb
    obtain ⟨w, m⟩ := x
    cases w
    · cases hr : respond bb m with
      | ok p =>
        obtain ⟨r, bb1⟩ := p
        simp [serveTwo, serveSession, hr, sessionInputs_cons, sessionOutputs_cons, ih]
        try exact ⟨rfl, rfl⟩
      | error e =>
        simp [serveTwo, serveSession, hr, sessionInputs_cons, sessionOutputs_cons, ih]
        try exact ⟨rfl, rfl⟩
    · cases hr : respond ba m with
      | ok p =>
        obtain ⟨r, ba1⟩ := p
        simp [serveTwo, serveSession, hr, sessionInputs_cons, sessionOutputs_cons, ih]
        try exact ⟨rfl, rfl⟩
      | error e =>
        simp [serveTwo, serveSession, hr, sessionInputs_cons, sessionOutputs_cons, ih]
        try exact ⟨rfl, rfl⟩

/-- `_check_tags` normalisation is idempotent: a second `__init__` leaves
the shared class table unchanged. -/
theorem check_tags_idem : ∀ t, check_tags (check_tags t) = check_tags t := by
  intro t
  induction t with
  | nil => rfl
  | cons pt rest ih =>
    obtain ⟨p, v⟩ := pt
    cases v <;> simp [check_tags] at ih ⊢ <;> exact ih

/-! ## Claim C1 -/

/-- C1, counterexample to the claim as stated: from the initial context a
first unrecognized utterance enters `confused` with `try_count = 1` (the
claim's premise), but the second consecutive unrecognized utterance does
NOT finish with `fail`: the engine re-enters `confused`, answers with the
confusion prompt again (not the fail text, no end marker), stays in the
`confused` state rather than the default one, and sets the counter to 2
rather than 0. -/
theorem c1_counterexample :
    respond initialBot "zzz" =
      .ok (some confusedText,
        { state := "confused", prev_state := "waiting", finish_flag := false,
          greeted_flag := false, try_count := 1, professor := none }) ∧
    respond ({ state := "confused", prev_state := "waiting", finish_flag := false,
               greeted_flag := false, try_count := 1, professor := none }) "zzz" =
      .ok (some confusedText,
        { state := "confused", prev_state := "waiting", finish_flag := false,
          greeted_flag := false, try_count := 2, professor := none }) ∧
    some confusedText ≠ some (failText ++ endMarker) ∧
    ("confused" : String) ≠ "waiting" :=
  ⟨rfl, rfl, by decide, by decide⟩

/-- C1 as amended: the second consecutive unrecognized utterance re-enters
`confused` and raises `confusedRetryCount` to 2 (see the concrete
two-step trace in the second and third conjuncts); it is the next
utterance after that — whatever its content — that makes the engine
finish with manner `fail`, reset the counter to 0, return to the default
state and append the end-of-conversation marker (first conjunct). -/
theorem c1_two_strike_amended :
    (∀ (b : Bot) (msg : String), b.state = "confused" → b.try_count = 2 →
        respond b msg =
          .ok (some (failText ++ endMarker),
            { b with try_count := 0, state := "waiting", finish_flag := false })) ∧
    respond initialBot "zzz" =
      .ok (some confusedText,
        { state := "confused", prev_state := "waiting", finish_flag := false,
          greeted_flag := false, try_count := 1, professor := none }) ∧
    respond ({ state := "confused", prev_state := "waiting", finish_flag := false,
               greeted_flag := false, try_count := 1, professor := none }) "zzz" =
      .ok (some confusedText,
        { state := "confused", prev_state := "waiting", finish_flag := false,
          greeted_flag := false, try_count := 2, professor := none }) := by
  refine ⟨?_, rfl, rfl⟩
  intro b msg hs ht
  unfold respond
  rw [hs]
  rw [show dispatchCore FUEL "confused" b msg =
      if (b.try_count == 2) = true then liftR (finish { b with try_count := 0 } "fail")
      else dispatchCore 99 b.prev_state b msg from rfl]
  rw [if_pos (show (b.try_count == 2) = true by rw [ht]; rfl)]
  rfl

/-- Witness for the amended C1: a concrete confused context with the
counter at 2 force-fails on the next utterance. -/
theorem c1_two_strike_witness :
    respond ({ state := "confused", prev_state := "waiting", finish_flag := false,
               greeted_flag := false, try_count := 2, professor := none }) "hello there" =
      .ok (some (failText ++ endMarker),
        { state := "waiting", prev_state := "waiting", finish_flag := false,
          greeted_flag := false, try_count := 0, professor := none }) :=
  c1_two_strike_amended.1 _ "hello there" rfl rfl

/-! ## Claim C2 -/

/-- C2: the code, run on the trace the claim describes.  A first
unrecognized utterance enters `confused` (counter 1); the next utterance
is recognized (`I am sad`) and the engine successfully transitions to the
non-confused state `why_sad` — yet `try_count` remains 1, not 0 (third
conjunct), because neither `go_to_state` nor `finish` ever resets it.
Consequently a single later confusion already raises the counter to 2
(fourth conjunct) and the following utterance force-fails the
conversation (fifth conjunct) although the bot was not confused twice in
a row — contradicting the claim, the spec, and the source's own comments
(`try_count` "keeps track of how many times bot is confused in a row",
`respond_from_confused` fails "if bot is confused twice in a row"). -/
theorem c2_retry_counter_bug :
    respond initialBot "zzz" =
      .ok (some confusedText,
        { state := "confused", prev_state := "waiting", finish_flag := false,
          greeted_flag := false, try_count := 1, professor := none }) ∧
    respond ({ state := "confused", prev_state := "waiting", finish_flag := false,
               greeted_flag := false, try_count := 1, professor := none }) "I am sad" =
      .ok (some "Hmm, I\x27m sorry to hear that.\nWhat is on your mind?",
        { state := "why_sad", prev_state := "confused", finish_flag := false,
          greeted_flag := false, try_count := 1, professor := none }) ∧
    ({ state := "why_sad", prev_state := "confused", finish_flag := false,
        greeted_flag := false, try_count := 1, professor := none } : Bot).try_count ≠ 0 ∧
    respond ({ state := "why_sad", prev_state := "confused", finish_flag := false,
               greeted_flag := false, try_count := 1, professor := none }) "zzz" =
      .ok (some confusedText,
        { state := "confused", prev_state := "why_sad", finish_flag := false,
          greeted_flag := false, try_count := 2, professor := none }) ∧
    respond ({ state := "confused", prev_state := "why_sad", finish_flag := false,
               greeted_flag := false, try_count := 2, professor := none }) "zzz" =
      .ok (some (failText ++ endMarker),
        { state := "waiting", prev_state := "why_sad", finish_flag := false,
          greeted_flag := false, try_count := 0, professor := none }) :=
  ⟨rfl, rfl, by decide, rfl, rfl⟩

/-! ## Claim C3 -/

/-- C3, counterexample to the claim as stated: the context reached from
the initial state by the two messages `zzz`, `I am sad` has
`previousState = "confused"` — when `go_to_state` leaves `confused` for a
recognized topic, the suppression clause does not apply (only one of the
two states is `confused`) and `prev_state` is overwritten with
`"confused"`. -/
theorem c3_counterexample :
    Reachable ({ state := "why_sad", prev_state := "confused", finish_flag := false,
                 greeted_flag := false, try_count := 1, professor := none }) ∧
    ({ state := "why_sad", prev_state := "confused", finish_flag := false,
        greeted_flag := false, try_count := 1, professor := none } : Bot).prev_state =
      "confused" := by
  have s1 : respond initialBot "zzz" =
      .ok (some confusedText,
        { state := "confused", prev_state := "waiting", finish_flag := false,
          greeted_flag := false, try_count := 1, professor := none }) := rfl
  have s2 : respond ({ state := "confused", prev_state := "waiting", finish_flag := false,
                       greeted_flag := false, try_count := 1, professor := none }) "I am sad" =
      .ok (some "Hmm, I\x27m sorry to hear that.\nWhat is on your mind?",
        { state := "why_sad", prev_state := "confused", finish_flag := false,
          greeted_flag := false, try_count := 1, professor := none }) := rfl
  exact ⟨.step (.step .init s1) s2, rfl⟩

/-- C3 as amended: in every reachable context, `previousState` is not the
`confused` state WHILE the current state is `confused` (so backtracking
always re-dispatches under the pre-confusion topic state), and responding
from `confused` with the retry counter below 2 re-dispatches the new
utterance under the response handler of `previousState`; `previousState`
may however transiently equal `confused` in contexts whose current state
is not `confused`, right after a successful recovery. -/
theorem c3_backtrack_amended :
    (∀ b : Bot, Reachable b → b.state = "confused" → b.prev_state ≠ "confused") ∧
    (∀ (b : Bot) (msg : String), b.state = "confused" → (b.try_count == 2) = false →
        respond b msg = respond_using 99 b.prev_state b msg) := by
  constructor
  · intro b hb
    induction hb with
    | init => intro h; simp [initialBot] at h
    | step hre hstep ih => exact (dispatch_master _ _ _ _ _ _ hstep).1 ih
  · intro b msg hs htc
    unfold respond respond_using
    rw [hs]
    rw [show dispatchCore FUEL "confused" b msg =
        if (b.try_count == 2) = true then liftR (finish { b with try_count := 0 } "fail")
        else dispatchCore 99 b.prev_state b msg from rfl]
    rw [htc]
    simp

/-- Witness for the amended C3 at the reachable confused context produced
by one unrecognized message. -/
theorem c3_backtrack_witness :
    ({ state := "confused", prev_state := "waiting", finish_flag := false,
        greeted_flag := false, try_count := 1, professor := none } : Bot).prev_state ≠
        "confused" ∧
    respond ({ state := "confused", prev_state := "waiting", finish_flag := false,
               greeted_flag := false, try_count := 1, professor := none }) "zz" =
      respond_using 99 "waiting"
        ({ state := "confused", prev_state := "waiting", finish_flag := false,
           greeted_flag := false, try_count := 1, professor := none }) "zz" := by
  have s1 : respond initialBot "zzz" =
      .ok (some confusedText,
        { state := "confused", prev_state := "waiting", finish_flag := false,
          greeted_flag := false, try_count := 1, professor := none }) := rfl
  exact ⟨c3_backtrack_amended.1 _ (.step .init s1) rfl,
    c3_backtrack_amended.2 _ "zz" rfl rfl⟩

/-! ## Claim C4 -/

/-- C4: for every registered finish manner (one with a `finish_*`
producer), `finish` returns to the default state; a terminal manner
(`success`, `fail`, `thanks`, `cant_help`) additionally clears
`finishPending` and appends the end-of-conversation marker, while any
non-terminal manner leaves `finishPending` set and returns the plain
utterance. -/
theorem c4_finish_semantics :
    ∀ (b : Bot) (m u : String), finishUtterance m = some u →
      (terminalManner m = true →
        finish b m =
          .ok (u ++ endMarker, { b with state := "waiting", finish_flag := false })) ∧
      (terminalManner m = false →
        finish b m = .ok (u, { b with state := "waiting", finish_flag := true })) := by
  intro b m u hu
  constructor <;> intro ht <;> unfold finish <;> rw [hu] <;> dsimp only
  · rw [if_pos ht]
  · rw [if_neg (by simp [ht])]

/-- Witness for C4 at the terminal manner `fail` and the non-terminal
manner `checkpoint`. -/
theorem c4_finish_semantics_witness :
    finish initialBot "fail" =
      .ok (failText ++ endMarker,
        { initialBot with state := "waiting", finish_flag := false }) ∧
    finish initialBot "checkpoint" =
      .ok ("CHECKPOINT BABY", { initialBot with state := "waiting", finish_flag := true }) :=
  ⟨(c4_finish_semantics initialBot "fail" failText rfl).1 rfl,
   (c4_finish_semantics initialBot "checkpoint" "CHECKPOINT BABY" rfl).2 rfl⟩

/-! ## Claim C5 -/

/-- C5: the code, run on a reachable state that refutes the claim.  The
state `anxious_breathe` is reachable from the initial context (first
conjunct), and an utterance with no recognized tag there makes the
handler fall through all branches and return Python's `None` — no
conversational utterance, no confusion fallback, context unchanged
(second conjunct), contradicting both the claim and the class docstring
("This function should always return with calls to either go_to_state or
finish"). -/
theorem c5_recognition_failure_bug :
    respond initialBot "I am worried" =
      .ok (some "You must be feeling overwhelmed right now.\nLet\x27s pull ourselves into the present.\nPlease close your eyes and take 3 huge breaths.Do you feel better?",
        { state := "anxious_breathe", prev_state := "waiting", finish_flag := false,
          greeted_flag := false, try_count := 0, professor := none }) ∧
    respond ({ state := "anxious_breathe", prev_state := "waiting", finish_flag := false,
               greeted_flag := false, try_count := 0, professor := none }) "zzz" =
      .ok (none,
        { state := "anxious_breathe", prev_state := "waiting", finish_flag := false,
          greeted_flag := false, try_count := 0, professor := none }) :=
  ⟨rfl, rfl⟩

/-! ## Claim C8 -/

/-- C8: configuration errors fail fast.  Invoking `go_to_state` with the
default state or with a state outside the declared state set raises an
`AssertionError` at call time, and invoking `finish` with a manner that
has no registered `finish_*` producer raises an `AttributeError`; none of
them returns a response. -/
theorem c8_config_errors :
    (∀ b : Bot, go_to_state b "waiting" =
        .error (.assertionError
          "WARNING: do not call go_to_state on the default state; use finish instead")) ∧
    (∀ (b : Bot) (s : String), STATES.contains s = false →
        go_to_state b s =
          .error (.assertionError ("ERROR: state " ++ s ++ " is not defined"))) ∧
    (∀ (b : Bot) (m : String), finishUtterance m = none →
        finish b m = .error (.attributeError ("finish_" ++ m))) := by
  refine ⟨fun b => rfl, fun b s hs => ?_, fun b m hm => ?_⟩
  · unfold go_to_state
    rw [if_pos (show ¬ STATES.contains s = true by rw [hs]; simp)]
  · unfold finish
    rw [hm]

/-- Witness for C8: the default state, an undeclared state, and the
unregistered manner `location` (which `respond_from_specific_faculty`
actually invokes). -/
theorem c8_config_errors_witness :
    go_to_state initialBot "waiting" =
      .error (.assertionError
        "WARNING: do not call go_to_state on the default state; use finish instead") ∧
    go_to_state initialBot "florb" =
      .error (.assertionError "ERROR: state florb is not defined") ∧
    finish initialBot "location" = .error (.attributeError "finish_location") :=
  ⟨c8_config_errors.1 initialBot, c8_config_errors.2.1 initialBot "florb" rfl,
   c8_config_errors.2.2 initialBot "location" rfl⟩

/-! ## Claim C9 -/

/-- C9: session noninterference.  All mutable per-session attributes live
on the bot record that `respond` maps to a new record, so serving two
conversations interleaved (each message dispatched to its own context)
yields, for each session, exactly the outputs and final context of
serving it alone — two-run independence.  The only engine-level shared
mutable data in the source, the class tag table normalised in place by
`_check_tags` during `__init__`, is a fixed point after the first
initialisation (last conjunct), so a second session's construction does
not disturb the first. -/
theorem c9_session_noninterference :
    (∀ (input : List (Bool × String)) (ba bb : Bot),
        sessionOutputs true (serveTwo (ba, bb) input).1 =
            (serveSession ba (sessionInputs true input)).1 ∧
          (serveTwo (ba, bb) input).2.1 = (serveSession ba (sessionInputs true input)).2 ∧
          sessionOutputs false (serveTwo (ba, bb) input).1 =
            (serveSession bb (sessionInputs false input)).1 ∧
          (serveTwo (ba, bb) input).2.2 =
            (serveSession bb (sessionInputs false input)).2) ∧
    check_tags (check_tags rawTAGS) = check_tags rawTAGS :=
  ⟨serveTwo_indep, check_tags_idem rawTAGS⟩

/-! ## Claim C10 -/

/-- C10: the greeted-flag lifecycle.  (i) Invoking the greeting state's
entry producer returns its fixed text and sets `greeted_flag` as a side
effect; (ii) no entry producer ever clears the flag; (iii) no finish ever
touches the flag; (iv) for any dispatch of any state's response handler,
if the flag went from set to cleared then the waiting handler's branch
for a `success` tag with `greeted_flag` set and no finish pending ran,
and in that branch the engine finishes with the (non-terminal)
`good_response` manner. -/
theorem c10_greeted_lifecycle :
    (∀ b : Bot, on_enter "greeting" b =
        .ok ("I am here to help! How are you feeling today?",
          { b with greeted_flag := true })) ∧
    (∀ (s : String) (b : Bot) (t : String) (b1 : Bot),
        on_enter s b = .ok (t, b1) → b1.greeted_flag = false → b.greeted_flag = false) ∧
    (∀ (c : Bot) (m t : String) (b' : Bot),
        finish c m = .ok (t, b') → b'.greeted_flag = c.greeted_flag) ∧
    (∀ (fuel : Nat) (s : String) (b : Bot) (msg : String) (r : Option String) (b' : Bot),
        dispatchCore fuel s b msg = .ok (r, b') → b'.greeted_flag = false →
          b.greeted_flag = false ∨
            ((get_tags msg).contains "success" = true ∧ b.greeted_flag = true ∧
              b.finish_flag = false ∧ r = some goodResponseText ∧
              b' = ({ b with greeted_flag := false, finish_flag := true, state := "waiting" }))) := by
  refine ⟨fun b => rfl, ?_, ?_, ?_⟩
  · intro s b t b1 h
    exact (on_enter_frame h).2.2.2
  · intro c m t b' h
    exact (finish_ok h).2.1
  · intro fuel s b msg r b' h hgf
    exact (dispatch_master fuel s b msg r b' h).2 hgf

/-- Witness for C10: a greeted, no-finish-pending waiting context that
receives `ok` (a `success` phrase) goes through the clearing branch. -/
theorem c10_greeted_lifecycle_witness :
    ({ state := "waiting", prev_state := "", finish_flag := false, greeted_flag := true,
        try_count := 0, professor := none } : Bot).greeted_flag = false ∨
      ((get_tags "ok").contains "success" = true ∧
        ({ state := "waiting", prev_state := "", finish_flag := false,
            greeted_flag := true, try_count := 0, professor := none } : Bot).greeted_flag =
          true ∧
        ({ state := "waiting", prev_state := "", finish_flag := false,
            greeted_flag := true, try_count := 0, professor := none } : Bot).finish_flag =
          false ∧
        (some goodResponseText : Option String) = some goodResponseText ∧
        ({ state := "waiting", prev_state := "", finish_flag := true,
            greeted_flag := false, try_count := 0, professor := none } : Bot) =
          ({ ({ state := "waiting", prev_state := "", finish_flag := false,
                greeted_flag := true, try_count := 0, professor := none } : Bot) with
             greeted_flag := false, finish_flag := true, state := "waiting" })) :=
  c10_greeted_lifecycle.2.2.2 100 "waiting"
    { state := "waiting", prev_state := "", finish_flag := false, greeted_flag := true,
      try_count := 0, professor := none } "ok" (some goodResponseText)
    { state := "waiting", prev_state := "", finish_flag := true, greeted_flag := false,
      try_count := 0, professor := none } rfl rfl

end Oxy
